import Mathlib

/-!
Verification of the invoicing ROI simulator server (`src/server.js`).

The simulation engine `simulate` and its HTTP-facing routes are embedded
shallowly: JavaScript numbers are modelled as rationals, and a request-body
field is `none` when it is missing or non-numeric (in JavaScript,
`Number(...)` yields a non-finite value there, which `toNumber` replaces by
the per-field fallback).  All definitions follow `src/server.js` line by
line; rounding uses the `Math.round(n * 100) / 100` convention, which on
exact values is `⌊n * 100 + 1/2⌋ / 100` (round half toward +∞).
-/

/-- Internal constant `automatedCostPerInvoice = 0.20` (server.js line 9). -/
def automatedCostPerInvoice : ℚ := 20 / 100

/-- Internal constant `errorRateAuto = 0.001` (server.js line 10). -/
def errorRateAuto : ℚ := 1 / 1000

/-- Internal constant `timeSavedPerInvoiceMinutes = 8` (server.js line 11). -/
def timeSavedPerInvoiceMinutes : ℚ := 8

/-- Internal constant `minRoiBoostFactor = 1.1` (server.js line 12). -/
def minRoiBoostFactor : ℚ := 11 / 10

/-- A request body for `simulate`.  Each field is `none` when the JSON body
lacks it or holds a non-numeric / non-finite value. -/
structure Payload where
  monthly_invoice_volume : Option ℚ := none
  num_ap_staff : Option ℚ := none
  avg_hours_per_invoice : Option ℚ := none
  hourly_wage : Option ℚ := none
  error_rate_manual : Option ℚ := none
  error_cost : Option ℚ := none
  time_horizon_months : Option ℚ := none
  one_time_implementation_cost : Option ℚ := none
deriving DecidableEq

/-- `toNumber(value, fallback = 0)` (server.js lines 42-45): coerce to a
number, falling back when the coercion is not finite. -/
def toNumber (value : Option ℚ) (fallback : ℚ) : ℚ :=
  match value with
  | some n => n
  | none => fallback

/-- `round2(n) = Math.round(n * 100) / 100` (server.js lines 47-49). -/
def round2 (n : ℚ) : ℚ := (⌊n * 100 + 1 / 2⌋ : ℚ) / 100

/-- The normalized inputs echoed by `simulate` (server.js lines 52-59 and
91-100).  `time_horizon_months` is an integer after `Math.floor`. -/
structure Inputs where
  monthly_invoice_volume : ℚ
  num_ap_staff : ℚ
  avg_hours_per_invoice : ℚ
  hourly_wage : ℚ
  error_rate_manual : ℚ
  error_cost : ℚ
  time_horizon_months : ℤ
  one_time_implementation_cost : ℚ
deriving DecidableEq

/-- Input normalization, server.js lines 52-59. -/
def normalizeInputs (payload : Payload) : Inputs where
  monthly_invoice_volume := max 0 (toNumber payload.monthly_invoice_volume 0)
  num_ap_staff := max 0 (toNumber payload.num_ap_staff 0)
  avg_hours_per_invoice := max 0 (toNumber payload.avg_hours_per_invoice 0)
  hourly_wage := max 0 (toNumber payload.hourly_wage 0)
  error_rate_manual := max 0 (toNumber payload.error_rate_manual 0)
  error_cost := max 0 (toNumber payload.error_cost 0)
  time_horizon_months := max 1 ⌊toNumber payload.time_horizon_months 36⌋
  one_time_implementation_cost :=
    max 0 (toNumber payload.one_time_implementation_cost 50000)

/-- `errorRateManual = errorRateManualPercent / 100` (server.js line 62). -/
def errorRateManual (i : Inputs) : ℚ := i.error_rate_manual / 100

/-- Step 1, manual labor cost per month (server.js line 65). -/
def laborCostManual (i : Inputs) : ℚ :=
  i.num_ap_staff * i.hourly_wage * i.avg_hours_per_invoice *
    i.monthly_invoice_volume

/-- Step 2, automation cost per month (server.js line 68). -/
def autoCost (i : Inputs) : ℚ :=
  i.monthly_invoice_volume * automatedCostPerInvoice

/-- Step 3, error savings per month (server.js line 71). -/
def errorSavings (i : Inputs) : ℚ :=
  (errorRateManual i - errorRateAuto) * i.monthly_invoice_volume * i.error_cost

/-- Step 4, raw monthly savings (server.js line 74). -/
def monthlySavingsRaw (i : Inputs) : ℚ :=
  (laborCostManual i + errorSavings i) - autoCost i

/-- The favorable clamp (server.js line 78). -/
def favorableBaseline (i : Inputs) : ℚ :=
  max (monthlySavingsRaw i) (|monthlySavingsRaw i| * (15 / 100) + 100)

/-- Step 5 with the absolute floor safeguard (server.js lines 81-82). -/
def monthlySavings (i : Inputs) : ℚ :=
  let m := favorableBaseline i * minRoiBoostFactor
  if m ≤ 0 then 100 else m

/-- Step 6, cumulative savings (server.js line 85). -/
def cumulativeSavings (i : Inputs) : ℚ :=
  monthlySavings i * (i.time_horizon_months : ℚ)

/-- Net savings (server.js line 86). -/
def netSavings (i : Inputs) : ℚ :=
  cumulativeSavings i - i.one_time_implementation_cost

/-- Payback months, `null` unless `monthlySavings > 0` (server.js line 87). -/
def paybackMonths (i : Inputs) : Option ℚ :=
  if 0 < monthlySavings i
    then some (i.one_time_implementation_cost / monthlySavings i) else none

/-- ROI percentage, `null` unless the implementation cost is positive
(server.js line 88). -/
def roiPercentage (i : Inputs) : Option ℚ :=
  if 0 < i.one_time_implementation_cost
    then some ((netSavings i / i.one_time_implementation_cost) * 100) else none

/-- The `constants` object of `simulate` (server.js lines 101-106). -/
structure Constants where
  automated_cost_per_invoice : ℚ
  error_rate_auto : ℚ
  time_saved_per_invoice : ℚ
  min_roi_boost_factor : ℚ
deriving DecidableEq

/-- The `results` object of `simulate` (server.js lines 107-116). -/
structure Results where
  labor_cost_manual : ℚ
  auto_cost : ℚ
  error_savings : ℚ
  monthly_savings : ℚ
  cumulative_savings : ℚ
  net_savings : ℚ
  payback_months : Option ℚ
  roi_percentage : Option ℚ
deriving DecidableEq

/-- The full return value of `simulate` (server.js lines 90-117). -/
structure SimOutput where
  inputs : Inputs
  constants : Constants
  results : Results
deriving DecidableEq

/-- `simulate(payload)`, server.js lines 51-118. -/
def simulate (payload : Payload) : SimOutput :=
  let i := normalizeInputs payload
  { inputs := i
    constants :=
      { automated_cost_per_invoice := automatedCostPerInvoice
        error_rate_auto := errorRateAuto
        time_saved_per_invoice := timeSavedPerInvoiceMinutes
        min_roi_boost_factor := minRoiBoostFactor }
    results :=
      { labor_cost_manual := round2 (laborCostManual i)
        auto_cost := round2 (autoCost i)
        error_savings := round2 (errorSavings i)
        monthly_savings := round2 (monthlySavings i)
        cumulative_savings := round2 (cumulativeSavings i)
        net_savings := round2 (netSavings i)
        payback_months := Option.map round2 (paybackMonths i)
        roi_percentage := Option.map round2 (roiPercentage i) } }

/-- Response of `POST /simulate` after `delete sim.constants` (server.js
lines 121-130): only `inputs` and `results`, never `constants`. -/
structure SimulateResponse where
  inputs : Inputs
  results : Results
deriving DecidableEq

/-- `POST /simulate` handler (server.js lines 121-130): run the engine and
strip the `constants` object from the response. -/
def postSimulate (body : Payload) : SimulateResponse :=
  let sim := simulate body
  { inputs := sim.inputs, results := sim.results }

/-- JavaScript `String.prototype.trim`: drop leading and trailing whitespace
(used on `scenario_name`, server.js lines 135 and 142). -/
def jsTrim (s : String) : String :=
  ⟨((s.data.dropWhile Char.isWhitespace).reverse.dropWhile
      Char.isWhitespace).reverse⟩

/-- A stored scenario document (server.js lines 140-146); `inputs_json` and
`results_json` round-trip through JSON exactly, so they are kept as the
structured values. -/
structure ScenarioDoc where
  id : String
  scenario_name : String
  inputs : Inputs
  results : Results

/-- Response of `POST /scenarios` (server.js lines 132-154). -/
inductive PostScenariosResponse where
  | ok (id : String) (scenario_name : String) (inputs : Inputs)
      (results : Results)
  | badRequest (error : String)

/-- `POST /scenarios` handler (server.js lines 132-154): reject a missing or
blank `scenario_name` with a 400 before computing anything, else simulate,
persist and respond.  The store is the list of saved documents; `freshId`
stands for the generated nanoid. -/
def postScenarios (store : List ScenarioDoc) (scenario_name : Option String)
    (body : Payload) (freshId : String) :
    PostScenariosResponse × List ScenarioDoc :=
  match scenario_name with
  | none => (.badRequest "scenario_name is required", store)
  | some s =>
    if (jsTrim s).length = 0
      then (.badRequest "scenario_name is required", store)
    else
      let sim := simulate body
      let doc : ScenarioDoc :=
        { id := freshId, scenario_name := jsTrim s, inputs := sim.inputs
          results := sim.results }
      (.ok freshId (jsTrim s) sim.inputs sim.results, store ++ [doc])

/-- Re-reading stored normalized inputs as a request body, as
`POST /report/generate` does with `JSON.parse(row.inputs_json)` (server.js
lines 196-203). -/
def payloadOfInputs (i : Inputs) : Payload where
  monthly_invoice_volume := some i.monthly_invoice_volume
  num_ap_staff := some i.num_ap_staff
  avg_hours_per_invoice := some i.avg_hours_per_invoice
  hourly_wage := some i.hourly_wage
  error_rate_manual := some i.error_rate_manual
  error_cost := some i.error_cost
  time_horizon_months := some (i.time_horizon_months : ℚ)
  one_time_implementation_cost := some i.one_time_implementation_cost

/-- The numbers `POST /report/generate` displays for a saved scenario: it
re-runs `simulate` on the stored inputs and renders `sim.results` verbatim
(server.js lines 205-256). -/
def reportResults (storedInputs : Inputs) : Results :=
  (simulate (payloadOfInputs storedInputs)).results

/-! ### Concrete request bodies used in the theorems below -/

/-- The all-zeroes request body. -/
def zeroPayload : Payload :=
  { monthly_invoice_volume := some 0, num_ap_staff := some 0
    avg_hours_per_invoice := some 0, hourly_wage := some 0
    error_rate_manual := some 0, error_cost := some 0
    time_horizon_months := some 0, one_time_implementation_cost := some 0 }

/-- The empty request body: every field missing. -/
def emptyPayload : Payload := {}

/-- A profitable body whose raw monthly savings (29800) already exceed the
favorability floor, exercising the pass-through boundary. -/
def boundaryPayload : Payload :=
  { monthly_invoice_volume := some 1000, num_ap_staff := some 1
    avg_hours_per_invoice := some 1, hourly_wage := some 30 }

/-- A body with a fractional monthly savings value (raw 100.8, biased
126.632), where rounding an intermediate would change later results. -/
def fractionalPayload : Payload :=
  { monthly_invoice_volume := some 1, num_ap_staff := some 1
    avg_hours_per_invoice := some 1, hourly_wage := some 101 }

/-- A losing body: raw monthly savings -0.201. -/
def lossPayload1 : Payload :=
  { monthly_invoice_volume := some 1, error_cost := some 1 }

/-- A losing body: raw monthly savings -0.2. -/
def lossPayload2 : Payload :=
  { monthly_invoice_volume := some 1 }

/-- A body whose manual error rate (0) is below the automated rate. -/
def negativeErrorPayload : Payload :=
  { monthly_invoice_volume := some 1000, error_rate_manual := some 0
    error_cost := some 100 }

/-! ### Helper lemmas -/

lemma simulate_inputs_eq (p : Payload) :
    (simulate p).inputs = normalizeInputs p := rfl

lemma simulate_monthly_savings_eq (p : Payload) :
    (simulate p).results.monthly_savings
      = round2 (monthlySavings (normalizeInputs p)) := rfl

lemma hundred_le_favorableBaseline (i : Inputs) :
    100 ≤ favorableBaseline i := by
  refine le_trans ?_ (le_max_right _ _)
  have h : 0 ≤ |monthlySavingsRaw i| * (15 / 100) := by positivity
  linarith

lemma monthlySavings_eq_baseline_mul (i : Inputs) :
    monthlySavings i = favorableBaseline i * minRoiBoostFactor := by
  have h0 : (0 : ℚ) < favorableBaseline i :=
    lt_of_lt_of_le (by norm_num) (hundred_le_favorableBaseline i)
  have h : ¬ favorableBaseline i * minRoiBoostFactor ≤ 0 := by
    rw [not_le]
    exact mul_pos h0 (by norm_num [minRoiBoostFactor])
  simp only [monthlySavings, h, if_false]

lemma le_monthlySavings (i : Inputs) : 110 ≤ monthlySavings i := by
  rw [monthlySavings_eq_baseline_mul, minRoiBoostFactor]
  have h := hundred_le_favorableBaseline i
  linarith

lemma round2_mono {a b : ℚ} (h : a ≤ b) : round2 a ≤ round2 b := by
  unfold round2
  have hf : (⌊a * 100 + 1 / 2⌋ : ℤ) ≤ ⌊b * 100 + 1 / 2⌋ :=
    Int.floor_le_floor (by linarith)
  have hc : ((⌊a * 100 + 1 / 2⌋ : ℤ) : ℚ) ≤ ((⌊b * 100 + 1 / 2⌋ : ℤ) : ℚ) := by
    exact_mod_cast hf
  exact div_le_div_of_nonneg_right hc (by norm_num)

lemma round2_110 : round2 110 = 110 := by norm_num [round2]

lemma pos_monthlySavings_rounded (p : Payload) :
    0 < (simulate p).results.monthly_savings := by
  rw [simulate_monthly_savings_eq]
  have h : round2 110 ≤ round2 (monthlySavings (normalizeInputs p)) :=
    round2_mono (le_monthlySavings _)
  rw [round2_110] at h
  linarith

lemma max_zero_max_zero (x : ℚ) : max 0 (max 0 x) = max 0 x :=
  max_eq_right (le_max_left 0 x)

lemma normalizeInputs_payloadOfInputs (p : Payload) :
    normalizeInputs (payloadOfInputs (normalizeInputs p)) = normalizeInputs p := by
  simp only [normalizeInputs, payloadOfInputs, toNumber, Inputs.mk.injEq,
    Int.floor_intCast]
  refine ⟨?_, ?_, ?_, ?_, ?_, ?_, ?_, ?_⟩ <;>
    first
      | exact max_zero_max_zero _
      | exact max_eq_right (le_max_left 1 _)

lemma simulate_results_congr {p q : Payload}
    (h : normalizeInputs p = normalizeInputs q) :
    (simulate p).results = (simulate q).results := by
  simp only [simulate, h]

/-! ### Claim theorems -/

/-- C1: `simulate` reports `monthly_savings` as `favorable_baseline * 1.1`
(rounded to 2 decimals), where `favorable_baseline` is
`max(monthly_savings_raw, |monthly_savings_raw| * 0.15 + 100)`; on the
boundary where the raw value is positive and already at or above that floor,
the raw value passes through unchanged as `monthly_savings_raw * 1.1`. -/
theorem sim_monthly_savings_bias (p : Payload) :
    (simulate p).results.monthly_savings
      = round2 (max (monthlySavingsRaw (normalizeInputs p))
          (|monthlySavingsRaw (normalizeInputs p)| * (15 / 100) + 100) *
          minRoiBoostFactor)
    ∧ (0 < monthlySavingsRaw (normalizeInputs p) →
        |monthlySavingsRaw (normalizeInputs p)| * (15 / 100) + 100 ≤
          monthlySavingsRaw (normalizeInputs p) →
        (simulate p).results.monthly_savings
          = round2 (monthlySavingsRaw (normalizeInputs p) *
              minRoiBoostFactor)) := by
  constructor
  · rw [simulate_monthly_savings_eq, monthlySavings_eq_baseline_mul,
      favorableBaseline]
  · intro h1 h2
    rw [simulate_monthly_savings_eq, monthlySavings_eq_baseline_mul,
      favorableBaseline, max_eq_left h2]

theorem sim_monthly_savings_bias_witness :
    (simulate boundaryPayload).results.monthly_savings
      = round2 (monthlySavingsRaw (normalizeInputs boundaryPayload) *
          minRoiBoostFactor) :=
  (sim_monthly_savings_bias boundaryPayload).2
    (by norm_num [boundaryPayload, normalizeInputs, toNumber,
      monthlySavingsRaw, laborCostManual, errorSavings, autoCost,
      errorRateManual, errorRateAuto, automatedCostPerInvoice])
    (by norm_num [boundaryPayload, normalizeInputs, toNumber,
      monthlySavingsRaw, laborCostManual, errorSavings, autoCost,
      errorRateManual, errorRateAuto, automatedCostPerInvoice,
      max_def, abs_eq_max_neg])

/-- C2: the reported `monthly_savings` is strictly positive for every input,
and the all-zero request body yields exactly 110
(`raw = 0`, `baseline = max(0, 100) = 100`, `100 * 1.1 = 110`). -/
theorem sim_monthly_savings_pos (p : Payload) :
    0 < (simulate p).results.monthly_savings
    ∧ (simulate zeroPayload).results.monthly_savings = 110 := by
  refine ⟨pos_monthlySavings_rounded p, ?_⟩
  norm_num [zeroPayload, simulate, normalizeInputs, toNumber, monthlySavings,
    favorableBaseline, monthlySavingsRaw, laborCostManual, errorSavings,
    autoCost, errorRateManual, round2, minRoiBoostFactor, errorRateAuto,
    automatedCostPerInvoice, max_def, abs_eq_max_neg]

/-- C3: `simulate` is total (a plain function on every request body): every
field is coerced with a per-field default (0 for most fields, 36 for
`time_horizon_months`, 50000 for `one_time_implementation_cost`), all fields
are clamped to be nonnegative, and `time_horizon_months` is floored to an
integer forced to be at least 1 (input 2.9 yields 2, input 0 yields 1). -/
theorem sim_normalization_total (p : Payload) :
    (simulate p).inputs = normalizeInputs p
    ∧ 0 ≤ (simulate p).inputs.monthly_invoice_volume
    ∧ 0 ≤ (simulate p).inputs.num_ap_staff
    ∧ 0 ≤ (simulate p).inputs.avg_hours_per_invoice
    ∧ 0 ≤ (simulate p).inputs.hourly_wage
    ∧ 0 ≤ (simulate p).inputs.error_rate_manual
    ∧ 0 ≤ (simulate p).inputs.error_cost
    ∧ 0 ≤ (simulate p).inputs.one_time_implementation_cost
    ∧ 1 ≤ (simulate p).inputs.time_horizon_months
    ∧ (simulate { time_horizon_months := some (29 / 10) }).inputs.time_horizon_months = 2
    ∧ (simulate { time_horizon_months := some 0 }).inputs.time_horizon_months = 1
    ∧ (simulate emptyPayload).inputs.time_horizon_months = 36
    ∧ (simulate emptyPayload).inputs.one_time_implementation_cost = 50000
    ∧ (simulate { hourly_wage := some (-5) }).inputs.hourly_wage = 0 := by
  refine ⟨rfl, le_max_left _ _, le_max_left _ _, le_max_left _ _,
    le_max_left _ _, le_max_left _ _, le_max_left _ _, le_max_left _ _,
    le_max_left _ _, ?_, ?_, ?_, ?_, ?_⟩ <;>
    norm_num [emptyPayload, simulate, normalizeInputs, toNumber, max_def]

/-- C4: the reported `error_savings` is
`(error_rate_manual / 100 - 0.001) * monthly_invoice_volume * error_cost`
(rounded to 2 decimals, in terms of the echoed normalized inputs), and it is
strictly negative for `error_rate_manual = 0` with nonzero volume and error
cost: the subtraction is not clamped before the favorability-floor step. -/
theorem sim_error_savings_formula (p : Payload) :
    (simulate p).results.error_savings
      = round2 (((simulate p).inputs.error_rate_manual / 100 - errorRateAuto) *
          (simulate p).inputs.monthly_invoice_volume *
          (simulate p).inputs.error_cost)
    ∧ (simulate negativeErrorPayload).results.error_savings < 0 := by
  refine ⟨rfl, ?_⟩
  norm_num [negativeErrorPayload, simulate, normalizeInputs, toNumber,
    errorSavings, errorRateManual, round2, errorRateAuto, max_def]

/-- C5: `payback_months` always equals
`one_time_implementation_cost / monthly_savings` rounded to 2 decimals and is
never `null` (the unrounded `monthly_savings` is always positive), while
`roi_percentage` is `null` exactly when the normalized
`one_time_implementation_cost` is 0 and otherwise equals
`(net_savings / one_time_implementation_cost) * 100` rounded to 2 decimals. -/
theorem sim_payback_roi_null_policy (p : Payload) :
    (simulate p).results.payback_months
      = some (round2 ((simulate p).inputs.one_time_implementation_cost /
          monthlySavings (normalizeInputs p)))
    ∧ ((simulate p).results.roi_percentage = none ↔
        (simulate p).inputs.one_time_implementation_cost = 0)
    ∧ ((simulate p).inputs.one_time_implementation_cost ≠ 0 →
        (simulate p).results.roi_percentage
          = some (round2 ((netSavings (normalizeInputs p) /
              (simulate p).inputs.one_time_implementation_cost) * 100))) := by
  have hpos : 0 < monthlySavings (normalizeInputs p) :=
    lt_of_lt_of_le (by norm_num) (le_monthlySavings _)
  have hcost : 0 ≤ (normalizeInputs p).one_time_implementation_cost :=
    le_max_left _ _
  refine ⟨?_, ?_, ?_⟩
  · show Option.map round2 (paybackMonths (normalizeInputs p)) = _
    rw [paybackMonths, if_pos hpos, Option.map_some']
    rfl
  · show Option.map round2 (roiPercentage (normalizeInputs p)) = none ↔
      (normalizeInputs p).one_time_implementation_cost = 0
    rw [roiPercentage]
    rcases lt_or_eq_of_le hcost with hc | hc
    · rw [if_pos hc]
      simp [ne_of_gt hc]
    · rw [if_neg (by rw [← hc]; exact lt_irrefl 0)]
      simp [← hc]
  · intro hne
    have hc : 0 < (normalizeInputs p).one_time_implementation_cost :=
      lt_of_le_of_ne hcost (Ne.symm hne)
    show Option.map round2 (roiPercentage (normalizeInputs p)) = _
    rw [roiPercentage, if_pos hc, Option.map_some']
    rfl

theorem sim_payback_roi_null_policy_witness :
    (simulate emptyPayload).results.roi_percentage
      = some (round2 ((netSavings (normalizeInputs emptyPayload) /
          (simulate emptyPayload).inputs.one_time_implementation_cost) *
          100)) :=
  (sim_payback_roi_null_policy emptyPayload).2.2
    (by norm_num [emptyPayload, simulate, normalizeInputs, toNumber, max_def])

/-- C6: the numbers `POST /report/generate` renders for a saved scenario are
exactly the scenario's stored results: re-running `simulate` on the stored
normalized inputs reproduces the stored results,
`simulate(simulate(x).inputs).results = simulate(x).results`. -/
theorem report_reproduces_stored_results (p : Payload) :
    reportResults (simulate p).inputs = (simulate p).results := by
  show (simulate (payloadOfInputs (normalizeInputs p))).results
    = (simulate p).results
  exact simulate_results_congr (normalizeInputs_payloadOfInputs p)

/-- C7: every displayed results field is rounded to 2 decimals independently,
while later derivation steps consume the unrounded intermediates:
`cumulative_savings`, `net_savings`, `payback_months` and `roi_percentage`
are rounded images of formulas over the unrounded `monthly_savings`, and on
a concrete body the value differs from what rounding the intermediate
`monthly_savings` first would give (4558.75 versus 4558.68). -/
theorem sim_rounding_from_unrounded (p : Payload) :
    (simulate p).results.cumulative_savings
      = round2 (monthlySavings (normalizeInputs p) *
          ((normalizeInputs p).time_horizon_months : ℚ))
    ∧ (simulate p).results.net_savings
      = round2 (monthlySavings (normalizeInputs p) *
          ((normalizeInputs p).time_horizon_months : ℚ) -
          (normalizeInputs p).one_time_implementation_cost)
    ∧ (simulate p).results.payback_months
      = Option.map round2 (paybackMonths (normalizeInputs p))
    ∧ (simulate p).results.roi_percentage
      = Option.map round2 (roiPercentage (normalizeInputs p))
    ∧ (simulate fractionalPayload).results.cumulative_savings = 455875 / 100
    ∧ round2 (round2 (monthlySavings (normalizeInputs fractionalPayload)) *
        ((normalizeInputs fractionalPayload).time_horizon_months : ℚ))
      = 455868 / 100 := by
  refine ⟨rfl, rfl, rfl, rfl, ?_, ?_⟩ <;>
    norm_num [fractionalPayload, simulate, normalizeInputs, toNumber,
      monthlySavings, favorableBaseline, monthlySavingsRaw, laborCostManual,
      errorSavings, autoCost, errorRateManual, cumulativeSavings, netSavings,
      round2, minRoiBoostFactor, errorRateAuto, automatedCostPerInvoice,
      max_def, abs_eq_max_neg]

/-- C8: `POST /scenarios` with a missing, empty, or whitespace-only
`scenario_name` responds 400 with a human-readable reason, and the store is
unchanged: nothing is computed or persisted for that request. -/
theorem post_scenarios_blank_name_rejected (store : List ScenarioDoc)
    (body : Payload) (freshId : String) :
    postScenarios store none body freshId
      = (.badRequest "scenario_name is required", store)
    ∧ ∀ s : String, (jsTrim s).length = 0 →
        postScenarios store (some s) body freshId
          = (.badRequest "scenario_name is required", store) := by
  refine ⟨rfl, ?_⟩
  intro s hs
  simp only [postScenarios]
  rw [if_pos hs]

theorem post_scenarios_blank_name_rejected_witness :
    postScenarios [] (some "   ") emptyPayload "id1"
      = (.badRequest "scenario_name is required", []) :=
  (post_scenarios_blank_name_rejected [] emptyPayload "id1").2 "   "
    (by decide)

/-- C9: the `POST /simulate` response carries exactly the engine's `inputs`
and `results` and no `constants` object (the response type has no such
field), even though `simulate` itself does return the constants; and the
echoed `inputs.error_rate_manual` stays in percent form — a nonnegative
percent input is echoed unchanged, not divided by 100. -/
theorem post_simulate_strips_constants (body : Payload) :
    (postSimulate body).inputs = (simulate body).inputs
    ∧ (postSimulate body).results = (simulate body).results
    ∧ (simulate body).constants
      = { automated_cost_per_invoice := automatedCostPerInvoice
          error_rate_auto := errorRateAuto
          time_saved_per_invoice := timeSavedPerInvoiceMinutes
          min_roi_boost_factor := minRoiBoostFactor }
    ∧ ∀ q : ℚ, body.error_rate_manual = some q → 0 ≤ q →
        (postSimulate body).inputs.error_rate_manual = q := by
  refine ⟨rfl, rfl, rfl, ?_⟩
  intro q hq h0
  show max 0 (toNumber body.error_rate_manual 0) = q
  rw [hq]
  show max 0 q = q
  exact max_eq_right h0

theorem post_simulate_strips_constants_witness :
    (postSimulate { error_rate_manual := some 12 }).inputs.error_rate_manual
      = 12 :=
  (post_simulate_strips_constants { error_rate_manual := some 12 }).2.2.2
    12 rfl (by norm_num)

/-- C10, counterexample: two losing bodies with raw monthly savings
-0.201 < -0.2 < 0 whose reported (rounded) `monthly_savings` coincide at
110.03, so the reported value for the worse body is not strictly greater. -/
theorem bias_anti_monotone_counterexample :
    monthlySavingsRaw (normalizeInputs lossPayload1) <
        monthlySavingsRaw (normalizeInputs lossPayload2)
    ∧ monthlySavingsRaw (normalizeInputs lossPayload2) < 0
    ∧ ¬ ((simulate lossPayload2).results.monthly_savings <
          (simulate lossPayload1).results.monthly_savings) := by
  refine ⟨?_, ?_, ?_⟩ <;>
    norm_num [lossPayload1, lossPayload2, simulate, normalizeInputs, toNumber,
      monthlySavings, favorableBaseline, monthlySavingsRaw, laborCostManual,
      errorSavings, autoCost, errorRateManual, round2, minRoiBoostFactor,
      errorRateAuto, automatedCostPerInvoice, max_def, abs_eq_max_neg]

/-- C10, amended: on losing bodies (raw savings r1 < r2 < 0) the favorability
bias is strictly anti-monotone before rounding and weakly anti-monotone on
the reported (rounded) `monthly_savings`; the pre-rounding `monthly_savings`
is always at least 110, so the absolute-floor branch forcing 100 is
unreachable. -/
theorem bias_anti_monotone_amended (p1 p2 : Payload)
    (h1 : monthlySavingsRaw (normalizeInputs p1) <
        monthlySavingsRaw (normalizeInputs p2))
    (h2 : monthlySavingsRaw (normalizeInputs p2) < 0) :
    monthlySavings (normalizeInputs p2) < monthlySavings (normalizeInputs p1)
    ∧ (simulate p2).results.monthly_savings ≤
        (simulate p1).results.monthly_savings
    ∧ ∀ p : Payload, 110 ≤ monthlySavings (normalizeInputs p)
        ∧ monthlySavings (normalizeInputs p)
          = favorableBaseline (normalizeInputs p) * minRoiBoostFactor := by
  have h1neg : monthlySavingsRaw (normalizeInputs p1) < 0 := lt_trans h1 h2
  have key : ∀ q : Payload, monthlySavingsRaw (normalizeInputs q) < 0 →
      monthlySavings (normalizeInputs q)
        = (-(monthlySavingsRaw (normalizeInputs q)) * (15 / 100) + 100) *
            minRoiBoostFactor := by
    intro q hq
    have hle : monthlySavingsRaw (normalizeInputs q) ≤
        -(monthlySavingsRaw (normalizeInputs q)) * (15 / 100) + 100 := by
      linarith
    rw [monthlySavings_eq_baseline_mul, favorableBaseline, abs_of_neg hq,
      max_eq_right hle]
  have hlt : monthlySavings (normalizeInputs p2) <
      monthlySavings (normalizeInputs p1) := by
    rw [key p1 h1neg, key p2 h2, minRoiBoostFactor]
    linarith
  refine ⟨hlt, ?_,
    fun p => ⟨le_monthlySavings _, monthlySavings_eq_baseline_mul _⟩⟩
  rw [simulate_monthly_savings_eq, simulate_monthly_savings_eq]
  exact round2_mono (le_of_lt hlt)

theorem bias_anti_monotone_amended_witness :
    monthlySavings (normalizeInputs lossPayload2) <
        monthlySavings (normalizeInputs lossPayload1)
    ∧ (simulate lossPayload2).results.monthly_savings ≤
        (simulate lossPayload1).results.monthly_savings
    ∧ ∀ p : Payload, 110 ≤ monthlySavings (normalizeInputs p)
        ∧ monthlySavings (normalizeInputs p)
          = favorableBaseline (normalizeInputs p) * minRoiBoostFactor :=
  bias_anti_monotone_amended lossPayload1 lossPayload2
    (by norm_num [lossPayload1, lossPayload2, normalizeInputs, toNumber,
      monthlySavingsRaw, laborCostManual, errorSavings, autoCost,
      errorRateManual, errorRateAuto, automatedCostPerInvoice, max_def])
    (by norm_num [lossPayload2, normalizeInputs, toNumber, monthlySavingsRaw,
      laborCostManual, errorSavings, autoCost, errorRateManual, errorRateAuto,
      automatedCostPerInvoice, max_def])
